import Mathlib

/-!
Verification of the price-and-thermal-aware decision engine of the
py-playground heating optimizers (sensibo_optimizer.py and
vvb_optimizer_connected.py) against its natural-language specification.

The Python code is shallowly embedded: numeric state uses ℚ, Python dicts
become association lists, datetimes become integer minute or hour counts,
and fallible Python expressions (which may raise TypeError) return
Except String values.  Each definition mirrors one Python function; the
doc comment names it.
-/

/-- Python runtime value restricted to the two shapes that reach the cost
functions of sensibo_optimizer.py: a float (ℚ here) or a tuple of numbers.
The module-level constant TRANSFER_AND_TAX_COST_PER_MWH_EXCL_VAT is written
751,8 in the source (line 79), which in Python denotes the tuple (751, 8),
so the addition inside cost_of_consumed_mwh is a tuple-plus-float addition. -/
inductive PyVal where
  | num : ℚ → PyVal
  | tup : List ℚ → PyVal
deriving DecidableEq

/-- Python addition on the embedded values: number plus number adds, tuple
plus tuple concatenates, and any mixed addition raises TypeError. -/
def pyAdd : PyVal → PyVal → Except String PyVal
  | PyVal.num a, PyVal.num b => Except.ok (PyVal.num (a + b))
  | PyVal.tup a, PyVal.tup b => Except.ok (PyVal.tup (a ++ b))
  | PyVal.tup _, PyVal.num _ =>
      Except.error "TypeError: can only concatenate tuple, not float, to tuple"
  | PyVal.num _, PyVal.tup _ =>
      Except.error "TypeError: unsupported operand types for +: float and tuple"

/-- Python multiplication on the embedded values.  The only multiplication
performed by the modelled code multiplies the result of
cost_of_consumed_mwh by a float, so every non-number operand is a
TypeError (sequence repetition would need an int, and the factor here is
a float). -/
def pyMul : PyVal → PyVal → Except String PyVal
  | PyVal.num a, PyVal.num b => Except.ok (PyVal.num (a * b))
  | _, _ => Except.error "TypeError: unsupported operand types for *"

/-- Python strict greater-than comparison on the embedded values. -/
def pyGt : PyVal → PyVal → Except String Bool
  | PyVal.num a, PyVal.num b => Except.ok (decide (b < a))
  | _, _ => Except.error "TypeError: unsupported comparison"

/-- Constant of sensibo_optimizer.py line 79.  The source reads
751,8 (a decimal-comma slip), which Python parses as the tuple (751, 8). -/
def TRANSFER_AND_TAX_COST_PER_MWH_EXCL_VAT : PyVal := PyVal.tup [751, 8]

/-- Constant of sensibo_optimizer.py line 80. -/
def ABSOLUTE_SEK_PER_MWH_TO_CONSIDER_REASONABLE : ℚ := 777.7

/-- Constant of sensibo_optimizer.py line 81. -/
def RELATIVE_SEK_PER_MWH_TO_CONSIDER_REASONABLE_WHEN_COMPARED_TO_CHEAPEST : ℚ := 654.3

/-- Constant of sensibo_optimizer.py line 82. -/
def ABSOLUTE_SEK_PER_MWH_TO_CONSIDER_CHEAP : ℚ := 350

/-- Constant of sensibo_optimizer.py line 83. -/
def ABSOLUTE_SEK_PER_MWH_BEYOND_WHICH_TO_REDUCE_COMFORT : ℚ := 5000

/-- Constant of sensibo_optimizer.py line 104. -/
def MAX_HOURS_OF_REDUCED_COMFORT_PER_DAY : ℕ := 3

/-- Constant of sensibo_optimizer.py line 108. -/
def COMFORT_PLUS_TEMP_DELTA : ℚ := 2

/-- PriceAnalyzer.cost_of_consumed_mwh (sensibo_optimizer.py lines 285-287):
returns TRANSFER_AND_TAX_COST_PER_MWH_EXCL_VAT + raw_mwh_cost under Python
addition semantics. -/
def cost_of_consumed_mwh (rawMwhCost : PyVal) : Except String PyVal :=
  pyAdd TRANSFER_AND_TAX_COST_PER_MWH_EXCL_VAT rawMwhCost

/-- PriceAnalyzer.get_delta_degree_percent (lines 222-229).  The indoor
temperature read from the provider is passed explicitly. -/
def get_delta_degree_percent (indoorTemperature delta outdoorEstimatedTemp : ℚ) : ℚ :=
  let deltaDegrees := indoorTemperature - outdoorEstimatedTemp
  if delta < deltaDegrees then 1 - ((deltaDegrees - delta) / deltaDegrees) else 99

/-- PriceAnalyzer.cost_of_early_consumed_mwh (lines 262-283):
cost_of_consumed_mwh(raw) * (1 + delta_degree_percent * nbr_of_hours_too_early).
The outdoor temperature estimate (live reading or forecast, depending on
temperature_time_delta) is passed explicitly; evaluation order matches the
source, so the cost addition is evaluated before the multiplication. -/
def cost_of_early_consumed_mwh (rawMwhCost : PyVal) (nbrOfHoursTooEarly : ℚ)
    (indoorTemperature outdoorEstimatedTemp : ℚ) : Except String PyVal := do
  let base ← cost_of_consumed_mwh rawMwhCost
  pyMul base (PyVal.num (1 +
    get_delta_degree_percent indoorTemperature COMFORT_PLUS_TEMP_DELTA outdoorEstimatedTemp
      * nbrOfHoursTooEarly))

/-- PriceAnalyzer.process_preheat_favourable_hour (lines 289-301): when a
previous-hour price exists and cost(current) > cost_early(previous, ...),
the previous price period start hour is appended.  Python evaluates the
left side of the comparison first, so the TypeError inside
cost_of_consumed_mwh surfaces before cost_early is reached. -/
def process_preheat_favourable_hour (previousHourPrice : Option ℚ)
    (currentHourPrice : ℚ) (previousPricePeriodStartHour : ℤ)
    (indoorTemperature outdoorEstimatedTemp : ℚ) (acc : List ℤ) :
    Except String (List ℤ) :=
  match previousHourPrice with
  | none => Except.ok acc
  | some p => do
      let lhs ← cost_of_consumed_mwh (PyVal.num currentHourPrice)
      let rhs ← cost_of_early_consumed_mwh (PyVal.num p) 1
        indoorTemperature outdoorEstimatedTemp
      let isFav ← pyGt lhs rhs
      Except.ok (if isFav then acc ++ [previousPricePeriodStartHour] else acc)

/-- Loop body state of PriceAnalyzer.find_cheapest_hour_in_range (lines
303-312), translated literally: lowest_price is initialised to None,
tested in the comparison, and never assigned anywhere in the loop. -/
def find_cheapest_hour_in_range_go :
    List (ℤ × ℚ) → List ℤ → Option ℚ → Option ℤ → Option ℤ
  | [], _, _, cheapestHour => cheapestHour
  | (startHour, value) :: rest, searchHours, lowestPrice, cheapestHour =>
    if startHour ∈ searchHours then
      let isLower := match lowestPrice with
        | none => true
        | some lp => decide (value < lp)
      if isLower then
        find_cheapest_hour_in_range_go rest searchHours lowestPrice (some startHour)
      else
        find_cheapest_hour_in_range_go rest searchHours lowestPrice cheapestHour
    else
      find_cheapest_hour_in_range_go rest searchHours lowestPrice cheapestHour

/-- PriceAnalyzer.find_cheapest_hour_in_range (lines 303-312).  Day prices
are (price period start hour, value) pairs in day order. -/
def find_cheapest_hour_in_range (daySpotPrices : List (ℤ × ℚ))
    (searchHours : List ℤ) : Option ℤ :=
  find_cheapest_hour_in_range_go daySpotPrices searchHours none none

/-- Loop of PriceAnalyzer.get_lowest_price_today (lines 314-319). -/
def get_lowest_price_today_go : List ℚ → Option ℚ → Option ℚ
  | [], lowest => lowest
  | p :: rest, lowest =>
      get_lowest_price_today_go rest
        (match lowest with
         | none => some p
         | some lp => if p < lp then some p else some lp)

/-- PriceAnalyzer.get_lowest_price_today (lines 314-319). -/
def get_lowest_price_today (dayPrices : List ℚ) : Option ℚ :=
  get_lowest_price_today_go dayPrices none

/-- PriceAnalyzer.update_reasonably_priced_hours (lines 368-386), one loop
body step: the hour qualifies when its price is within the relative margin
of the lowest price or under the absolute ceiling, and additionally either
a next hour exists whose price is not lower (or the previous hour did not
qualify), or the price is under the absolute cheap floor. -/
def update_reasonably_priced_hours (daySpotPrices : List ℚ) (lowestPrice : ℚ)
    (hourPrice : ℚ) (currHourIdx : ℕ) (pricePeriodStartHour : ℤ)
    (acc : List ℤ) : List ℤ :=
  if (hourPrice ≤ lowestPrice +
        RELATIVE_SEK_PER_MWH_TO_CONSIDER_REASONABLE_WHEN_COMPARED_TO_CHEAPEST
      ∨ hourPrice ≤ ABSOLUTE_SEK_PER_MWH_TO_CONSIDER_REASONABLE)
     ∧ ((currHourIdx + 1 < daySpotPrices.length
          ∧ (hourPrice ≤ daySpotPrices.getD (currHourIdx + 1) 0
             ∨ (pricePeriodStartHour - 1) ∉ acc))
        ∨ hourPrice ≤ ABSOLUTE_SEK_PER_MWH_TO_CONSIDER_CHEAP)
  then acc ++ [pricePeriodStartHour]
  else acc

/-- Loop of PriceAnalyzer.find_warmup_hours (lines 321-366) restricted to
the two per-hour classification steps it performs on the
pre_heat_favorable_hours and reasonably_priced_hours attributes, in the
statement order of the source: first process_preheat_favourable_hour on
the previous/current price pair, then update_reasonably_priced_hours on
the current price.  The price period start hour equals the list index (a
normal 24-hour local day).  A raised TypeError aborts the whole loop, as
an exception does in Python: the error value carries the partially
accumulated (reasonably_priced_hours, pre_heat_favorable_hours) attribute
state left behind by the aborted pass.  The comfort-hour collection and
the update_cheap_boost_hours step of the same loop touch neither of these
two attributes and cannot raise before the preheat comparison does (at
hour 0 process_preheat_favourable_hour is a no-op and
update_cheap_boost_hours short-circuits before any cost call), so they
are omitted. -/
def find_warmup_hours_go (daySpotPrices : List ℚ) (lowestPrice : ℚ)
    (indoorTemperature outdoorEstimatedTemp : ℚ) :
    List ℚ → Option ℚ → ℕ → List ℤ → List ℤ →
      Except (String × List ℤ × List ℤ) (List ℤ × List ℤ)
  | [], _, _, reasonablyPriced, preHeatFavorable =>
      Except.ok (reasonablyPriced, preHeatFavorable)
  | p :: rest, prev, idx, reasonablyPriced, preHeatFavorable =>
      match process_preheat_favourable_hour prev p (Int.ofNat idx - 1)
          indoorTemperature outdoorEstimatedTemp preHeatFavorable with
      | Except.error e => Except.error (e, reasonablyPriced, preHeatFavorable)
      | Except.ok preHeat2 =>
          find_warmup_hours_go daySpotPrices lowestPrice indoorTemperature
            outdoorEstimatedTemp rest (some p) (idx + 1)
            (update_reasonably_priced_hours daySpotPrices lowestPrice p idx
              (Int.ofNat idx) reasonablyPriced)
            preHeat2

/-- PriceAnalyzer.find_warmup_hours (lines 321-366) for one day, viewed
through its reasonably-priced and preheat-favorable classification: the
lowest price feeding the relative test is get_lowest_price_today, both
accumulators start empty, and the result is either the two completed hour
sets or the raised TypeError together with the partial sets the aborted
pass leaves behind. -/
def find_warmup_hours (dayPrices : List ℚ)
    (indoorTemperature outdoorEstimatedTemp : ℚ) :
    Except (String × List ℤ × List ℤ) (List ℤ × List ℤ) :=
  find_warmup_hours_go dayPrices ((get_lowest_price_today dayPrices).getD 0)
    indoorTemperature outdoorEstimatedTemp dayPrices none 0 [] []

/-- Descending order used by sorted(comfort_hours.items(), reverse=True) in
PriceAnalyzer.calculate_reduced_comfort_hours: lexicographic on the
(price key, start hour) tuple, reversed. -/
def comfort_pair_before (a b : ℚ × ℤ) : Prop :=
  b.1 < a.1 ∨ (a.1 = b.1 ∧ b.2 ≤ a.2)

instance : DecidableRel comfort_pair_before := fun a b => by
  unfold comfort_pair_before; infer_instance

/-- Loop of PriceAnalyzer.calculate_reduced_comfort_hours (lines 416-431):
hours priced above the absolute ceiling are appended greedily, a candidate
adjacent to an already selected hour is skipped, and the loop breaks once
MAX_HOURS_OF_REDUCED_COMFORT_PER_DAY hours are selected. -/
def calculate_reduced_comfort_hours_go : List (ℚ × ℤ) → List ℤ → List ℤ
  | [], acc => acc
  | (price, startHour) :: rest, acc =>
    if ABSOLUTE_SEK_PER_MWH_BEYOND_WHICH_TO_REDUCE_COMFORT < price then
      if (startHour - 1) ∈ acc ∨ (startHour + 1) ∈ acc then
        calculate_reduced_comfort_hours_go rest acc
      else
        let acc2 := acc ++ [startHour]
        if MAX_HOURS_OF_REDUCED_COMFORT_PER_DAY ≤ acc2.length then acc2
        else calculate_reduced_comfort_hours_go rest acc2
    else
      calculate_reduced_comfort_hours_go rest acc

/-- PriceAnalyzer.calculate_reduced_comfort_hours (lines 416-431): the
comfort-hour (price key, start hour) pairs are visited in descending order
and filtered by the greedy loop. -/
def calculate_reduced_comfort_hours (comfortHours : List (ℚ × ℤ)) : List ℤ :=
  calculate_reduced_comfort_hours_go
    (comfortHours.insertionSort comfort_pair_before) []

/-- Value stored in a Sensibo settings dict: mode and swing names are
strings, target temperatures are ints, the on flag is a bool. -/
inductive SVal where
  | str : String → SVal
  | int : ℤ → SVal
  | bool : Bool → SVal
deriving DecidableEq

/-- State owned by SensiboController (lines 586-593): the skip-ahead flag,
the last-applied settings dict, and the optional max temperature cap. -/
structure SensiboControllerState where
  skipAhead : Bool
  currentSettings : List (String × SVal)
  maxTemp : Option ℤ
deriving DecidableEq

/-- Dict lookup on the association-list embedding of a Python dict. -/
def lookup_setting : String → List (String × SVal) → Option SVal
  | _, [] => none
  | k, (k2, v) :: rest => if k = k2 then some v else lookup_setting k rest

/-- Dict assignment on the association-list embedding: update in place if
the key exists, append otherwise (Python insertion order). -/
def set_setting (k : String) (v : SVal) : List (String × SVal) → List (String × SVal)
  | [] => [(k, v)]
  | (k2, v2) :: rest =>
      if k = k2 then (k, v) :: rest else (k2, v2) :: set_setting k v rest

/-- Target-temperature adjustment of SensiboController.apply (lines
603-612): deep copy the settings, add temp_offset to targetTemperature and
cap it at max_temp.  Every call site stores targetTemperature as an int. -/
def adjust_settings (settings : List (String × SVal)) (tempOffset : ℤ)
    (maxTemp : Option ℤ) : List (String × SVal) :=
  settings.map fun kv =>
    if kv.1 = "targetTemperature" then
      match kv.2 with
      | SVal.int v =>
          let adjusted := v + tempOffset
          (kv.1, SVal.int (match maxTemp with
            | some m => if m < adjusted then m else adjusted
            | none => adjusted))
      | other => (kv.1, other)
    else kv

/-- Field-diffing loop of SensiboController.apply (lines 628-640): each
setting differing from the last-applied state is sent
(pod_change_ac_state) and recorded.  Returns the new last-applied dict and
the list of sent field updates in order. -/
def sensibo_send_loop : List (String × SVal) → List (String × SVal) →
    List (String × SVal) × List (String × SVal)
  | [], curr => (curr, [])
  | (k, v) :: rest, curr =>
    if lookup_setting k curr = some v then
      sensibo_send_loop rest curr
    else
      let out := sensibo_send_loop rest (set_setting k v curr)
      (out.1, (k, v) :: out.2)

/-- Guard of SensiboController.apply (lines 615-620): the command is
dropped when skip-ahead is active, force is not set, and a valid hour is
given that differs from the current wall-clock hour. -/
def sensibo_skip_condition (st : SensiboControllerState) (force : Bool)
    (validHour : Option ℤ) (nowHour : ℤ) : Prop :=
  st.skipAhead = true ∧ force = false ∧ validHour.isSome = true
    ∧ validHour ≠ some nowHour

instance (st : SensiboControllerState) (force : Bool) (validHour : Option ℤ)
    (nowHour : ℤ) : Decidable (sensibo_skip_condition st force validHour nowHour) := by
  unfold sensibo_skip_condition; infer_instance

/-- SensiboController.apply (lines 600-640).  The current wall-clock hour
is passed explicitly.  Returns the new controller state and the list of
field updates actually sent to the device. -/
def sensibo_apply (st : SensiboControllerState) (settings : List (String × SVal))
    (tempOffset : ℤ) (force : Bool) (validHour : Option ℤ) (nowHour : ℤ) :
    SensiboControllerState × List (String × SVal) :=
  let adjusted := adjust_settings settings tempOffset st.maxTemp
  if sensibo_skip_condition st force validHour nowHour then
    (st, [])
  else
    let cs0 := if force then [] else st.currentSettings
    let skip2 := if validHour.isSome then false else st.skipAhead
    let out := sensibo_send_loop adjusted cs0
    ({ skipAhead := skip2, currentSettings := out.1, maxTemp := st.maxTemp }, out.2)

/-- State owned by TemperatureProvider that the outdoor path touches
(lines 434-442): the cached outdoor temperature, the time (in minutes) of
the last successful outdoor update, and the cached forecast (valid-time
hour index paired with the forecast temperature). -/
structure TemperatureProviderState where
  outdoorTemperature : ℚ
  lastOutdoorUpdate : Option ℤ
  lastForecast : Option (List (ℤ × ℚ))
deriving DecidableEq

/-- One round of network fetches available to update_outdoor_temperature:
the forecast document (none models a connection error or non-200 status)
and one optional numeric reading per TEMPERATURE_URLS entry (none models a
connection error or an unparsable body). -/
structure OutdoorFetches where
  forecastResponse : Option (List (ℤ × ℚ))
  temperatureResponses : List (Option ℚ)
deriving DecidableEq

/-- Forecast point match of get_forecasted_temperature (lines 508-525):
first point whose valid time equals the requested hour.  The windchill
correction with the default windchill percent of 0 is exactly the raw
temperature, which is what update_outdoor_temperature uses. -/
def lookup_forecast : List (ℤ × ℚ) → ℤ → Option ℚ
  | [], _ => none
  | (t, temp) :: rest, wanted =>
      if t = wanted then some temp else lookup_forecast rest wanted

/-- TemperatureProvider.get_forecasted_temperature with fallback=False
(lines 498-534), reduced to the cached-forecast lookup it performs. -/
def get_forecasted_temperature_nofallback
    (lastForecast : Option (List (ℤ × ℚ))) (wantedHour : ℤ) : Option ℚ :=
  match lastForecast with
  | none => none
  | some points => lookup_forecast points wantedHour

/-- TemperatureProvider.update_outdoor_temperature (lines 536-575): refresh
the forecast cache on success, average every temperature URL that parses
(recording the update time on each URL success), add the forecast reading
for the current (or next) hour when available, and update the cached
outdoor temperature only when at least one source contributed.  Time is in
minutes; the forecast valid time is the hour index now / 60. -/
def update_outdoor_temperature (st : TemperatureProviderState) (now : ℤ)
    (fetches : OutdoorFetches) : TemperatureProviderState :=
  let lastForecast2 := match fetches.forecastResponse with
    | some fc => some fc
    | none => st.lastForecast
  let urlAcc := fetches.temperatureResponses.foldl
    (fun (acc : ℚ × ℕ × Option ℤ) r =>
      match r with
      | some v => (acc.1 + v, acc.2.1 + 1, some now)
      | none => acc)
    (0, 0, st.lastOutdoorUpdate)
  let forecasted := match get_forecasted_temperature_nofallback lastForecast2 (now / 60) with
    | some t => some t
    | none => get_forecasted_temperature_nofallback lastForecast2 ((now + 60) / 60)
  let withForecast := match forecasted with
    | some t => (urlAcc.1 + t, urlAcc.2.1 + 1)
    | none => (urlAcc.1, urlAcc.2.1)
  { outdoorTemperature :=
      if 0 < withForecast.2 then withForecast.1 / (withForecast.2 : ℚ)
      else st.outdoorTemperature,
    lastOutdoorUpdate := urlAcc.2.2,
    lastForecast := lastForecast2 }

/-- TemperatureProvider.get_outdoor_temperature (lines 577-583): refresh
when no successful update happened yet or the last one is older than five
minutes, then return the cached value.  The third component counts the
refresh attempts issued by this call (0 or 1). -/
def get_outdoor_temperature (st : TemperatureProviderState) (now : ℤ)
    (fetches : OutdoorFetches) : ℚ × TemperatureProviderState × ℕ :=
  match st.lastOutdoorUpdate with
  | none =>
      let st2 := update_outdoor_temperature st now fetches
      (st2.outdoorTemperature, st2, 1)
  | some t =>
      if t + 5 < now then
        let st2 := update_outdoor_temperature st now fetches
        (st2.outdoorTemperature, st2, 1)
      else
        (st.outdoorTemperature, st, 0)

/-- HeatpumpModel.interpolate_linear (sensibo_optimizer.py lines 647-649). -/
def interpolate_linear (midX upperX lowerX upperY lowerY : ℚ) : ℚ :=
  lowerY + (midX - lowerX) * ((upperY - lowerY) / (upperX - lowerX))

/-- Constant of sensibo_optimizer.py line 88. -/
def HEATPUMP_COP_AT_PLUS15 : ℚ := 3.6

/-- Constant of sensibo_optimizer.py line 89. -/
def HEATPUMP_COP_AT_PLUS7 : ℚ := 3.0

/-- Constant of sensibo_optimizer.py line 90. -/
def HEATPUMP_COP_AT_PLUS2 : ℚ := 2.8

/-- Constant of sensibo_optimizer.py line 91. -/
def HEATPUMP_COP_AT_MINUS7 : ℚ := 2.3

/-- Constant of sensibo_optimizer.py line 92. -/
def HEATPUMP_COP_AT_MINUS15 : ℚ := 2.1

/-- Constant of sensibo_optimizer.py line 93. -/
def HEATPUMP_CAPACITY_AGE_FACTOR : ℚ := 0.88

/-- Constant of sensibo_optimizer.py line 94. -/
def HEATPUMP_HEATING_WATTS_AT_PLUS7 : ℚ := 6600

/-- Constant of sensibo_optimizer.py line 95. -/
def HEATPUMP_HEATING_WATTS_AT_PLUS2 : ℚ := 5600

/-- Constant of sensibo_optimizer.py line 96. -/
def HEATPUMP_HEATING_WATTS_AT_MINUS7 : ℚ := 5200

/-- Constant of sensibo_optimizer.py line 97. -/
def HEATPUMP_HEATING_WATTS_AT_MINUS15 : ℚ := 4300

/-- HeatpumpModel.get_cop (lines 667-703): a chain of overwriting branch
assignments, translated literally (later branches win). -/
def get_cop (outsideTemp : ℚ) : ℚ :=
  let c1 := HEATPUMP_COP_AT_PLUS15
  let c2 := if outsideTemp < 15 then
      interpolate_linear outsideTemp 15 7 HEATPUMP_COP_AT_PLUS15 HEATPUMP_COP_AT_PLUS7
    else c1
  let c3 := if outsideTemp < 7 then
      interpolate_linear outsideTemp 7 2 HEATPUMP_COP_AT_PLUS7 HEATPUMP_COP_AT_PLUS2
    else c2
  let c4 := if outsideTemp < 2 then
      interpolate_linear outsideTemp 2 (-7) HEATPUMP_COP_AT_PLUS2 HEATPUMP_COP_AT_MINUS7
    else c3
  let c5 := if outsideTemp < -7 then
      interpolate_linear outsideTemp (-7) (-15) HEATPUMP_COP_AT_MINUS7 HEATPUMP_COP_AT_MINUS15
    else c4
  if outsideTemp ≤ -15 then HEATPUMP_COP_AT_MINUS15 else c5

/-- HeatpumpModel.get_current_capacity (lines 705-733), including the
final age-factor scaling. -/
def get_current_capacity (outsideTemp : ℚ) : ℚ :=
  let w1 := HEATPUMP_HEATING_WATTS_AT_PLUS7
  let w2 := if outsideTemp < 7 then
      interpolate_linear outsideTemp 7 2
        HEATPUMP_HEATING_WATTS_AT_PLUS7 HEATPUMP_HEATING_WATTS_AT_PLUS2
    else w1
  let w3 := if outsideTemp < 2 then
      interpolate_linear outsideTemp 2 (-7)
        HEATPUMP_HEATING_WATTS_AT_PLUS2 HEATPUMP_HEATING_WATTS_AT_MINUS7
    else w2
  let w4 := if outsideTemp < -7 then
      interpolate_linear outsideTemp (-7) (-15)
        HEATPUMP_HEATING_WATTS_AT_MINUS7 HEATPUMP_HEATING_WATTS_AT_MINUS15
    else w3
  let w5 := if outsideTemp ≤ -15 then HEATPUMP_HEATING_WATTS_AT_MINUS15 else w4
  w5 * HEATPUMP_CAPACITY_AGE_FACTOR

/-- Epsilon-delta continuity of a rational-valued function at a point,
used to state the boundary-continuity claims about the piecewise-linear
heat pump model. -/
def ContinuousAtQ (f : ℚ → ℚ) (b : ℚ) : Prop :=
  ∀ ε : ℚ, 0 < ε → ∃ δ : ℚ, 0 < δ ∧ ∀ t : ℚ, |t - b| < δ → |f t - f b| < ε

/-- Constant of vvb_optimizer_connected.py line 91. -/
def MAX_TEMP : ℚ := 78

/-- Constant of vvb_optimizer_connected.py line 92. -/
def MIN_TEMP : ℚ := 28

/-- Constant of vvb_optimizer_connected.py line 94. -/
def MIN_DAILY_TEMP : ℚ := 50

/-- Constant of vvb_optimizer_connected.py line 95. -/
def MIN_LEGIONELLA_TEMP : ℚ := 65

/-- Constant of vvb_optimizer_connected.py line 96, in days. -/
def LEGIONELLA_INTERVAL : ℤ := 10

/-- Constant of vvb_optimizer_connected.py line 79. -/
def DEGREES_PER_H : ℚ := 9.4

/-- Constant of vvb_optimizer_connected.py line 85. -/
def LAST_MORNING_HEATING_H : ℤ := 6

/-- Constant of vvb_optimizer_connected.py line 86. -/
def LAST_WEEKEND_MORNING_HEATING_H : ℤ := 8

/-- Constant of vvb_optimizer_connected.py line 98 (0 = Monday). -/
def WEEKDAYS_WITH_EXTRA_MORNING_TAKEOUT : List ℤ := [0, 3]

/-- Constant of vvb_optimizer_connected.py line 113. -/
def PWM_28_DEGREES : ℚ := 1575

/-- Constant of vvb_optimizer_connected.py line 114. -/
def PWM_78_DEGREES : ℚ := 9000

/-- Constant of vvb_optimizer_connected.py line 115. -/
def PWM_PER_DEGREE : ℚ := (PWM_78_DEGREES - PWM_28_DEGREES) / 50

/-- Python int() applied to a float: truncation toward zero. -/
def pyInt (q : ℚ) : ℤ := if 0 ≤ q then ⌊q⌋ else -⌊-q⌋

/-- Thermostat.get_pwm_degrees (vvb_optimizer_connected.py lines 218-223). -/
def get_pwm_degrees (degrees : ℚ) : ℚ :=
  let pwmDegrees := PWM_28_DEGREES
  let pwmDegrees := if MIN_TEMP < degrees then
      pwmDegrees + (degrees - MIN_TEMP) * PWM_PER_DEGREE
    else pwmDegrees
  min pwmDegrees PWM_78_DEGREES

/-- State owned by Thermostat (lines 211-216). -/
structure ThermostatState where
  prevDegrees : Option ℚ
  overridden : Bool
deriving DecidableEq

/-- Thermostat.set_thermostat (lines 225-233): clamp the request into
[MIN_TEMP, MAX_TEMP]; when the clamped value differs from prev_degrees,
store it and emit the positioning duty followed by the duty 0 that stops
the servo pulse after the rotation delay.  Returns the new state and the
emitted duty_u16 values in order. -/
def set_thermostat (st : ThermostatState) (degrees : ℚ) (override : Bool) :
    ThermostatState × List ℤ :=
  let degrees1 := max degrees MIN_TEMP
  let degrees2 := min degrees1 MAX_TEMP
  if st.prevDegrees ≠ some degrees2 then
    ({ prevDegrees := some degrees2, overridden := override },
     [pyInt (get_pwm_degrees degrees2), 0])
  else
    ({ st with overridden := override }, [])

/-- get_last_morning_heating_h (vvb_optimizer_connected.py lines 539-542). -/
def get_last_morning_heating_h (weekday : ℤ) : ℤ :=
  if weekday = 5 ∨ weekday = 6 then LAST_WEEKEND_MORNING_HEATING_H
  else LAST_MORNING_HEATING_H

/-- Hourly wanted-temperature post-processing of run_hotwater_optimization
(vvb_optimizer_connected.py lines 817-837), starting from the value
returned by get_wanted_temp.  wantedTemp ranges over every possible
get_wanted_temp output, so the result covers every price curve, alarm
state and outdoor temperature; extraMorningScorePositive stands for
get_cheap_score_until(local_hour, FIRST_EVENING_HIGH_TAKEOUT_H, ...) > 0.
The pending_legionella_reset bookkeeping of lines 825-826 does not touch
wanted_temp and is omitted. -/
def select_hour_wanted_temp (wantedTemp : ℚ) (alarmFullyArmed : Bool)
    (daysWithAlarmArmed daysSinceLegionella localHour weekday : ℤ)
    (peakTempToday : ℚ) (extraMorningScorePositive : Bool) : ℚ :=
  let lastMorningHeatingH := get_last_morning_heating_h weekday
  let wt1 := if alarmFullyArmed then
      min (if 3 < daysWithAlarmArmed then min wantedTemp MIN_DAILY_TEMP else wantedTemp)
        MIN_LEGIONELLA_TEMP
    else wantedTemp
  let wt2 := if LEGIONELLA_INTERVAL < daysSinceLegionella
      ∧ (lastMorningHeatingH - 2 ≤ localHour ∧ localHour ≤ lastMorningHeatingH) then
      max wt1 (MIN_LEGIONELLA_TEMP + 1)
    else wt1
  let peak2 := max peakTempToday wt2
  if weekday ∈ WEEKDAYS_WITH_EXTRA_MORNING_TAKEOUT
      ∧ localHour = lastMorningHeatingH - 1 ∧ extraMorningScorePositive = true then
    min MAX_TEMP (peak2 + DEGREES_PER_H / 4)
  else wt2

/-- Strictly increasing 24-hour day price curve of Scenario B: the price
of hour h is h SEK/MWh. -/
def strictlyIncreasingDayPrices : List (ℤ × ℚ) :=
  (List.range 24).map fun h => ((h : ℤ), (h : ℚ))

/-- The full-day hour set 0..23. -/
def allDayHours : List ℤ := (List.range 24).map fun h => (h : ℤ)


/-- An hour list never contains two adjacent hours. -/
def NoAdjacentHours (l : List ℤ) : Prop := ∀ h : ℤ, h ∈ l → h + 1 ∉ l

/-- Concrete comfort-hour table used as a witness input for the
reduced-comfort invariant: a single comfort hour priced above the
reduction ceiling. -/
def singleExpensiveComfortHour : List (ℚ × ℤ) := [(6000, 10)]

/-- Concrete settings dict used as a witness input for the controller
idempotence theorem (a fragment of IDLE_SETTINGS). -/
def exampleSettings : List (String × SVal) :=
  [("mode", SVal.str "heat"), ("targetTemperature", SVal.int 17)]

/-- Freshly constructed controller state (skip-ahead active, nothing
applied yet, no max-temperature cap), as after SensiboController.__init__. -/
def exampleControllerState : SensiboControllerState :=
  { skipAhead := true, currentSettings := [], maxTemp := none }

/-- Concrete provider state used for the TTL theorems: cached outdoor
temperature of 10 degrees, last successful update at minute 100, no
cached forecast document. -/
def exampleProviderState : TemperatureProviderState :=
  { outdoorTemperature := 10, lastOutdoorUpdate := some 100, lastForecast := none }

/-- One fetch round in which the forecast request and all three
temperature URLs fail. -/
def failingOutdoorFetches : OutdoorFetches :=
  { forecastResponse := none, temperatureResponses := [none, none, none] }

/-- C1.  PriceAnalyzer.cost_of_consumed_mwh never returns a number: for
every raw per-MWh price it raises TypeError, because the surcharge
constant TRANSFER_AND_TAX_COST_PER_MWH_EXCL_VAT is written 751,8 and is
therefore the tuple (751, 8), and tuple plus float is a Python TypeError.
This refutes the claim that cost(p) always evaluates to p plus the fixed
surcharge. -/
theorem cost_of_consumed_mwh_always_raises (p : ℚ) :
    cost_of_consumed_mwh (PyVal.num p) =
      Except.error "TypeError: can only concatenate tuple, not float, to tuple" := rfl

/-- C5.  PriceAnalyzer.cost_of_early_consumed_mwh raises TypeError for
every raw price, hours-early count and heat-loss data, because it begins
by evaluating cost_of_consumed_mwh on the raw price, which raises (see
cost_of_consumed_mwh_always_raises); so it never returns the numbers whose
monotonicity in the hours-early argument the claim asserts. -/
theorem cost_of_early_consumed_mwh_always_raises
    (p nbrOfHoursTooEarly indoorTemperature outdoorEstimatedTemp : ℚ) :
    cost_of_early_consumed_mwh (PyVal.num p) nbrOfHoursTooEarly
        indoorTemperature outdoorEstimatedTemp =
      Except.error "TypeError: can only concatenate tuple, not float, to tuple" := rfl

/-- C2.  PriceAnalyzer.find_cheapest_hour_in_range does not return the
cheapest hour: lowest_price is initialised to None and never assigned, so
the guard is always true and the function returns the last hour of the
range.  On the strictly increasing Scenario B curve searched over the full
day it returns hour 23, the most expensive hour, where the claim requires
hour 0. -/
theorem find_cheapest_hour_returns_last_hour :
    find_cheapest_hour_in_range strictlyIncreasingDayPrices allDayHours = some 23
      ∧ (23 : ℤ) ≠ 0 := by decide

/-- Length bound for the greedy reduced-comfort loop: starting from an
accumulator of at most two hours it returns at most three. -/
theorem calculate_reduced_comfort_hours_go_length (l : List (ℚ × ℤ)) :
    ∀ acc : List ℤ, acc.length ≤ 2 →
      (calculate_reduced_comfort_hours_go l acc).length ≤ 3 := by
  induction l with
  | nil =>
      intro acc h
      simpa [calculate_reduced_comfort_hours_go] using by omega
  | cons hd tl ih =>
      intro acc h
      obtain ⟨price, startHour⟩ := hd
      simp only [calculate_reduced_comfort_hours_go]
      split_ifs with h1 h2 h3
      · exact ih acc h
      · simp only [List.length_append, List.length_singleton]
        omega
      · refine ih _ ?_
        simp only [List.length_append, List.length_singleton] at h3 ⊢
        simp only [MAX_HOURS_OF_REDUCED_COMFORT_PER_DAY] at h3
        omega
      · exact ih acc h

/-- Appending an hour that is not adjacent to any selected hour preserves
the no-adjacent-hours invariant. -/
theorem noAdjacentHours_append (acc : List ℤ) (s : ℤ)
    (hacc : NoAdjacentHours acc) (hleft : (s - 1) ∉ acc) (hright : (s + 1) ∉ acc) :
    NoAdjacentHours (acc ++ [s]) := by
  intro h hmem hmem2
  rcases List.mem_append.mp hmem with hA | hA
  · rcases List.mem_append.mp hmem2 with hB | hB
    · exact hacc h hA hB
    · have hs : h = s - 1 := by
        have := List.mem_singleton.mp hB
        omega
      exact hleft (hs ▸ hA)
  · have hs : h = s := List.mem_singleton.mp hA
    rcases List.mem_append.mp hmem2 with hB | hB
    · exact hright (hs ▸ hB)
    · have := List.mem_singleton.mp hB
      omega

/-- The greedy reduced-comfort loop preserves the no-adjacent-hours
invariant of its accumulator. -/
theorem calculate_reduced_comfort_hours_go_noadj (l : List (ℚ × ℤ)) :
    ∀ acc : List ℤ, NoAdjacentHours acc →
      NoAdjacentHours (calculate_reduced_comfort_hours_go l acc) := by
  induction l with
  | nil =>
      intro acc h
      simpa [calculate_reduced_comfort_hours_go] using h
  | cons hd tl ih =>
      intro acc h
      obtain ⟨price, startHour⟩ := hd
      simp only [calculate_reduced_comfort_hours_go]
      split_ifs with h1 h2 h3
      · exact ih acc h
      · push_neg at h2
        exact noAdjacentHours_append acc startHour h h2.1 h2.2
      · push_neg at h2
        exact ih _ (noAdjacentHours_append acc startHour h h2.1 h2.2)
      · exact ih acc h

/-- C3.  For every comfort-hour table (hence for every day price curve and
pair of comfort ranges feeding PriceAnalyzer.calculate_reduced_comfort_hours),
the selected reduced-comfort hours number at most
MAX_HOURS_OF_REDUCED_COMFORT_PER_DAY = 3 and never contain two adjacent
hours. -/
theorem reduced_comfort_hours_bounded_and_nonadjacent
    (comfortHours : List (ℚ × ℤ)) :
    (calculate_reduced_comfort_hours comfortHours).length ≤ 3
      ∧ ∀ h : ℤ, h ∈ calculate_reduced_comfort_hours comfortHours →
          (h + 1) ∉ calculate_reduced_comfort_hours comfortHours := by
  constructor
  · exact calculate_reduced_comfort_hours_go_length _ [] (by simp)
  · exact calculate_reduced_comfort_hours_go_noadj _ []
      (fun h hmem => by simp at hmem)

/-- Witness for C3 at a concrete comfort-hour table: hour 10 is selected
and hour 11 is therefore not. -/
theorem reduced_comfort_hours_bounded_and_nonadjacent_witness :
    (10 : ℤ) ∈ calculate_reduced_comfort_hours singleExpensiveComfortHour
      ∧ (11 : ℤ) ∉ calculate_reduced_comfort_hours singleExpensiveComfortHour :=
  ⟨by decide,
   (reduced_comfort_hours_bounded_and_nonadjacent singleExpensiveComfortHour).2 10
     (by decide)⟩

/-- Folding failing URL responses changes nothing: the sum, the source
count and the last-update timestamp all keep their incoming values. -/
theorem temperature_fold_all_none (now : ℤ) :
    ∀ l : List (Option ℚ), (∀ r ∈ l, r = none) →
      ∀ acc : ℚ × ℕ × Option ℤ,
        l.foldl (fun acc r =>
          match r with
          | some v => (acc.1 + v, acc.2.1 + 1, some now)
          | none => acc) acc = acc := by
  intro l
  induction l with
  | nil => intro _ acc; rfl
  | cons r rest ih =>
      intro h acc
      have hr : r = none := h r (by simp)
      subst hr
      simp only [List.foldl_cons]
      exact ih (fun x hx => h x (by simp [hx])) acc

/-- A refresh round in which the forecast request and every temperature
URL fail, with no cached forecast document to fall back on, leaves the
provider state — cached value, TTL timestamp and forecast cache — exactly
as it was: in particular the timestamp does not advance on failure. -/
theorem update_outdoor_temperature_all_fail (st : TemperatureProviderState)
    (now : ℤ) (fetches : OutdoorFetches)
    (hforecastCacheEmpty : st.lastForecast = none)
    (hforecastFail : fetches.forecastResponse = none)
    (hurlsFail : ∀ r ∈ fetches.temperatureResponses, r = none) :
    update_outdoor_temperature st now fetches = st := by
  obtain ⟨outd, lastu, lastf⟩ := st
  have hlf : lastf = none := hforecastCacheEmpty
  subst hlf
  simp only [update_outdoor_temperature, hforecastFail]
  rw [temperature_fold_all_none now fetches.temperatureResponses hurlsFail]
  simp [get_forecasted_temperature_nofallback]

/-- C7 counterexample.  After the TTL has expired, every accessor call
with failing fetches issues its own refresh attempt, because the
timestamp only advances on a successful temperature-URL fetch: two
consecutive failing calls at minutes 110 and 112 (last success at minute
100) issue two refresh attempts, not at most one as the claim states. -/
theorem outdoor_two_failing_calls_two_attempts :
    (get_outdoor_temperature exampleProviderState 110 failingOutdoorFetches).2.2
        + (get_outdoor_temperature
            (get_outdoor_temperature exampleProviderState 110
              failingOutdoorFetches).2.1 112 failingOutdoorFetches).2.2 = 2
      ∧ ¬ ((2 : ℕ) ≤ 1) := by
  have hupd : ∀ now : ℤ,
      update_outdoor_temperature exampleProviderState now failingOutdoorFetches
        = exampleProviderState := fun now =>
    update_outdoor_temperature_all_fail exampleProviderState now
      failingOutdoorFetches rfl rfl
      (by intro r hr; simpa [failingOutdoorFetches] using hr)
  have hkey : ∀ now : ℤ, (100 : ℤ) + 5 < now →
      get_outdoor_temperature exampleProviderState now failingOutdoorFetches
        = (10, exampleProviderState, 1) := by
    intro now hn
    have hlast : exampleProviderState.lastOutdoorUpdate = some 100 := rfl
    simp only [get_outdoor_temperature, hlast]
    rw [if_pos hn, hupd now]
    rfl
  rw [hkey 110 (by omega)]
  rw [hkey 112 (by omega)]
  exact ⟨rfl, by omega⟩

/-- C7 as amended.  With every fetch failing (and no cached forecast to
fall back on), each accessor call returns the unchanged cached value and
leaves the provider state — including the TTL timestamp — untouched; a
call inside the unexpired TTL window issues no refresh attempt, while
every call after expiry issues exactly one refresh attempt.  The
timestamp advances only on success, so consecutive failing calls after
expiry each retry: one attempt per accessor call, not one per TTL
expiry.  In particular two consecutive failing calls after expiry both
return the same cached value and together issue two attempts. -/
theorem outdoor_cache_on_failing_fetches (st : TemperatureProviderState)
    (fetches : OutdoorFetches) (t : ℤ)
    (hlast : st.lastOutdoorUpdate = some t)
    (hforecastCacheEmpty : st.lastForecast = none)
    (hforecastFail : fetches.forecastResponse = none)
    (hurlsFail : ∀ r ∈ fetches.temperatureResponses, r = none) :
    (∀ now : ℤ, now ≤ t + 5 →
        get_outdoor_temperature st now fetches = (st.outdoorTemperature, st, 0))
      ∧ (∀ now : ℤ, t + 5 < now →
        get_outdoor_temperature st now fetches = (st.outdoorTemperature, st, 1))
      ∧ (∀ now1 now2 : ℤ, t + 5 < now1 → t + 5 < now2 →
        (get_outdoor_temperature st now1 fetches).1 = st.outdoorTemperature
          ∧ (get_outdoor_temperature
              (get_outdoor_temperature st now1 fetches).2.1 now2 fetches).1
              = st.outdoorTemperature
          ∧ (get_outdoor_temperature st now1 fetches).2.2
              + (get_outdoor_temperature
                  (get_outdoor_temperature st now1 fetches).2.1 now2
                  fetches).2.2 = 2) := by
  have hupd : ∀ now : ℤ, update_outdoor_temperature st now fetches = st :=
    fun now => update_outdoor_temperature_all_fail st now fetches
      hforecastCacheEmpty hforecastFail hurlsFail
  have hin : ∀ now : ℤ, now ≤ t + 5 →
      get_outdoor_temperature st now fetches = (st.outdoorTemperature, st, 0) := by
    intro now hn
    simp only [get_outdoor_temperature, hlast]
    rw [if_neg (by omega : ¬ t + 5 < now)]
  have hout : ∀ now : ℤ, t + 5 < now →
      get_outdoor_temperature st now fetches = (st.outdoorTemperature, st, 1) := by
    intro now hn
    simp only [get_outdoor_temperature, hlast]
    rw [if_pos hn, hupd now]
  refine ⟨hin, hout, ?_⟩
  intro now1 now2 h1 h2
  rw [hout now1 h1]
  rw [hout now2 h2]
  exact ⟨rfl, rfl, rfl⟩

/-- Witness for C7: the cached 10 degrees of the example provider are
returned both inside the TTL window (minute 103, no refresh attempt) and
after expiry (minute 110, one refresh attempt), with all fetches
failing. -/
theorem outdoor_cache_on_failing_fetches_witness :
    exampleProviderState.lastOutdoorUpdate = some 100
      ∧ (103 : ℤ) ≤ 100 + 5 ∧ (100 : ℤ) + 5 < 110
      ∧ get_outdoor_temperature exampleProviderState 103 failingOutdoorFetches
          = (10, exampleProviderState, 0)
      ∧ get_outdoor_temperature exampleProviderState 110 failingOutdoorFetches
          = (10, exampleProviderState, 1) :=
  ⟨rfl, by omega, by omega,
   (outdoor_cache_on_failing_fetches exampleProviderState failingOutdoorFetches
      100 rfl rfl rfl (by intro r hr; simpa [failingOutdoorFetches] using hr)).1
     103 (by omega),
   (outdoor_cache_on_failing_fetches exampleProviderState failingOutdoorFetches
      100 rfl rfl rfl (by intro r hr; simpa [failingOutdoorFetches] using hr)).2.1
     110 (by omega)⟩

/-- C9.  Whatever wanted temperature the price-based logic produced
(wantedTemp ranges over every possible get_wanted_temp output, so over
every price curve and outdoor temperature), and whatever the alarm state,
if more than LEGIONELLA_INTERVAL days have passed since the legionella
temperature was last reached and the local hour lies in the designated
morning range, the hourly wanted temperature selected by
run_hotwater_optimization is at least MIN_LEGIONELLA_TEMP. -/
theorem legionella_floor_enforced (wantedTemp : ℚ) (alarmFullyArmed : Bool)
    (daysWithAlarmArmed daysSinceLegionella localHour weekday : ℤ)
    (peakTempToday : ℚ) (extraMorningScorePositive : Bool)
    (hdays : LEGIONELLA_INTERVAL < daysSinceLegionella)
    (hlow : get_last_morning_heating_h weekday - 2 ≤ localHour)
    (hhigh : localHour ≤ get_last_morning_heating_h weekday) :
    MIN_LEGIONELLA_TEMP ≤
      select_hour_wanted_temp wantedTemp alarmFullyArmed daysWithAlarmArmed
        daysSinceLegionella localHour weekday peakTempToday
        extraMorningScorePositive := by
  have hcond : LEGIONELLA_INTERVAL < daysSinceLegionella
      ∧ (get_last_morning_heating_h weekday - 2 ≤ localHour
         ∧ localHour ≤ get_last_morning_heating_h weekday) := ⟨hdays, hlow, hhigh⟩
  simp only [select_hour_wanted_temp, if_pos hcond]
  set wt1 := if alarmFullyArmed = true then
      min (if 3 < daysWithAlarmArmed then min wantedTemp MIN_DAILY_TEMP else wantedTemp)
        MIN_LEGIONELLA_TEMP
    else wantedTemp with hwt1
  split_ifs with hB
  · refine le_min (by norm_num [MIN_LEGIONELLA_TEMP, MAX_TEMP]) ?_
    have h66 : MIN_LEGIONELLA_TEMP + 1
        ≤ max peakTempToday (max wt1 (MIN_LEGIONELLA_TEMP + 1)) :=
      le_trans (le_max_right _ _) (le_max_right _ _)
    generalize hto :
      max peakTempToday (max wt1 (MIN_LEGIONELLA_TEMP + 1)) = B at h66 ⊢
    simp only [MIN_LEGIONELLA_TEMP, DEGREES_PER_H] at h66 ⊢
    linarith
  · have h66 : MIN_LEGIONELLA_TEMP + 1 ≤ max wt1 (MIN_LEGIONELLA_TEMP + 1) :=
      le_max_right _ _
    generalize hto : max wt1 (MIN_LEGIONELLA_TEMP + 1) = A at h66 ⊢
    simp only [MIN_LEGIONELLA_TEMP] at h66 ⊢
    linarith

/-- Witness for C9: eleven days since the last legionella-temperature
peak, Wednesday (weekday 2) at 05:00, alarm armed for five days, a
price-based wanted temperature at the bare minimum of 28 degrees. -/
theorem legionella_floor_enforced_witness :
    LEGIONELLA_INTERVAL < (11 : ℤ)
      ∧ get_last_morning_heating_h 2 - 2 ≤ (5 : ℤ)
      ∧ (5 : ℤ) ≤ get_last_morning_heating_h 2
      ∧ MIN_LEGIONELLA_TEMP ≤
          select_hour_wanted_temp 28 true 5 11 5 2 0 false := by
  refine ⟨?_, ?_, ?_, ?_⟩
  · norm_num [LEGIONELLA_INTERVAL]
  · norm_num [get_last_morning_heating_h, LAST_MORNING_HEATING_H]
  · norm_num [get_last_morning_heating_h, LAST_MORNING_HEATING_H]
  · exact legionella_floor_enforced 28 true 5 11 5 2 0 false
      (by norm_num [LEGIONELLA_INTERVAL])
      (by norm_num [get_last_morning_heating_h, LAST_MORNING_HEATING_H])
      (by norm_num [get_last_morning_heating_h, LAST_MORNING_HEATING_H])

/-- C10 counterexample.  Thermostat.set_thermostat ends every actuation
with pwm.duty_u16(0) to stop the servo pulse, so a duty of 0 — outside
[PWM_28_DEGREES, PWM_78_DEGREES] — is emitted on the very first call: the
claim that every emitted servo PWM duty lies within that band is false. -/
theorem set_thermostat_emits_out_of_range_duty :
    (0 : ℤ) ∈ (set_thermostat ⟨none, false⟩ 100 false).2
      ∧ ¬ ((1575 : ℤ) ≤ 0) := by
  constructor
  · simp [set_thermostat]
  · decide

/-- C10 as amended.  Every set_thermostat call clamps the request into
[MIN_TEMP, MAX_TEMP] = [28, 78] before acting, so the stored prev_degrees
is always the clamped value inside that band, and the emitted duties are
either none (unchanged request) or a positioning duty within
[PWM_28_DEGREES, PWM_78_DEGREES] = [1575, 9000] followed by the duty 0
that stops the servo pulse. -/
theorem set_thermostat_clamps_into_range (st : ThermostatState) (degrees : ℚ)
    (override : Bool) :
    ((set_thermostat st degrees override).1.prevDegrees
        = some (min (max degrees MIN_TEMP) MAX_TEMP)
      ∧ MIN_TEMP ≤ min (max degrees MIN_TEMP) MAX_TEMP
      ∧ min (max degrees MIN_TEMP) MAX_TEMP ≤ MAX_TEMP)
    ∧ ((set_thermostat st degrees override).2 = []
      ∨ ∃ u : ℤ, (set_thermostat st degrees override).2 = [u, 0]
          ∧ (1575 : ℤ) ≤ u ∧ u ≤ 9000) := by
  have hclamp : MIN_TEMP ≤ min (max degrees MIN_TEMP) MAX_TEMP :=
    le_min (le_max_right _ _) (by norm_num [MIN_TEMP, MAX_TEMP])
  have hpwm_lo : PWM_28_DEGREES ≤ get_pwm_degrees (min (max degrees MIN_TEMP) MAX_TEMP) := by
    simp only [get_pwm_degrees]
    refine le_min ?_ (by norm_num [PWM_28_DEGREES, PWM_78_DEGREES])
    split_ifs with h
    · have : (0 : ℚ) ≤ (min (max degrees MIN_TEMP) MAX_TEMP - MIN_TEMP) * PWM_PER_DEGREE := by
        apply mul_nonneg
        · linarith
        · norm_num [PWM_PER_DEGREE, PWM_28_DEGREES, PWM_78_DEGREES]
      linarith
    · exact le_refl _
  have hpwm_hi : get_pwm_degrees (min (max degrees MIN_TEMP) MAX_TEMP) ≤ PWM_78_DEGREES := by
    simp only [get_pwm_degrees]
    exact min_le_right _ _
  have hduty_lo : (1575 : ℤ) ≤ pyInt (get_pwm_degrees (min (max degrees MIN_TEMP) MAX_TEMP)) := by
    have h0 : (0 : ℚ) ≤ get_pwm_degrees (min (max degrees MIN_TEMP) MAX_TEMP) := by
      have : (0 : ℚ) ≤ PWM_28_DEGREES := by norm_num [PWM_28_DEGREES]
      linarith
    simp only [pyInt, if_pos h0]
    rw [Int.le_floor]
    have : ((1575 : ℤ) : ℚ) = PWM_28_DEGREES := by norm_num [PWM_28_DEGREES]
    rw [this]
    exact hpwm_lo
  have hduty_hi : pyInt (get_pwm_degrees (min (max degrees MIN_TEMP) MAX_TEMP)) ≤ 9000 := by
    have h0 : (0 : ℚ) ≤ get_pwm_degrees (min (max degrees MIN_TEMP) MAX_TEMP) := by
      have : (0 : ℚ) ≤ PWM_28_DEGREES := by norm_num [PWM_28_DEGREES]
      linarith
    simp only [pyInt, if_pos h0]
    have hle : (↑⌊get_pwm_degrees (min (max degrees MIN_TEMP) MAX_TEMP)⌋ : ℚ) ≤ PWM_78_DEGREES :=
      le_trans (Int.floor_le _) hpwm_hi
    have : ((9000 : ℤ) : ℚ) = PWM_78_DEGREES := by norm_num [PWM_78_DEGREES]
    rw [← this] at hle
    exact_mod_cast hle
  simp only [set_thermostat]
  split_ifs with hne
  · exact ⟨⟨rfl, hclamp, min_le_right _ _⟩,
      Or.inr ⟨pyInt (get_pwm_degrees (min (max degrees MIN_TEMP) MAX_TEMP)), rfl,
        hduty_lo, hduty_hi⟩⟩
  · exact ⟨⟨not_not.mp hne, hclamp, min_le_right _ _⟩, Or.inl rfl⟩

/-- Dict assignment then lookup of the same key yields the new value. -/
theorem lookup_set_setting_self (k : String) (v : SVal) (c : List (String × SVal)) :
    lookup_setting k (set_setting k v c) = some v := by
  induction c with
  | nil => simp [set_setting, lookup_setting]
  | cons hd tl ih =>
      obtain ⟨k2, v2⟩ := hd
      by_cases h : k = k2
      · simp [set_setting, lookup_setting, h]
      · simp [set_setting, lookup_setting, h, ih]

/-- Dict assignment leaves lookups of other keys unchanged. -/
theorem lookup_set_setting_other (k k2 : String) (v : SVal)
    (c : List (String × SVal)) (h : k2 ≠ k) :
    lookup_setting k2 (set_setting k v c) = lookup_setting k2 c := by
  induction c with
  | nil => simp [set_setting, lookup_setting, h]
  | cons hd tl ih =>
      obtain ⟨k3, v3⟩ := hd
      by_cases h1 : k = k3
      · subst h1
        by_cases h2 : k2 = k
        · exact absurd h2 h
        · simp [set_setting, lookup_setting, h2]
      · by_cases h2 : k2 = k3
        · simp [set_setting, lookup_setting, h1, h2]
        · simp [set_setting, lookup_setting, h1, h2, ih]

/-- When every field of the command already matches the last-applied
state, the diffing loop sends nothing and leaves the state unchanged. -/
theorem sensibo_send_loop_matches (l : List (String × SVal)) :
    ∀ c : List (String × SVal),
      (∀ kv ∈ l, lookup_setting kv.1 c = some kv.2) →
      sensibo_send_loop l c = (c, []) := by
  induction l with
  | nil => intro c _; rfl
  | cons hd tl ih =>
      intro c h
      obtain ⟨k, v⟩ := hd
      have hk : lookup_setting k c = some v := h (k, v) (by simp)
      simp only [sensibo_send_loop, if_pos hk]
      exact ih c fun kv hkv => h kv (by simp [hkv])

/-- The diffing loop does not disturb the stored value of a key absent
from the command. -/
theorem sensibo_send_loop_lookup_preserved (l : List (String × SVal)) :
    ∀ (c : List (String × SVal)) (k : String), k ∉ l.map Prod.fst →
      lookup_setting k (sensibo_send_loop l c).1 = lookup_setting k c := by
  induction l with
  | nil => intro c k _; rfl
  | cons hd tl ih =>
      intro c k hk
      obtain ⟨k1, v1⟩ := hd
      simp only [List.map_cons, List.mem_cons, not_or] at hk
      simp only [sensibo_send_loop]
      split_ifs with h1
      · exact ih c k hk.2
      · rw [ih _ k hk.2]
        exact lookup_set_setting_other k1 k v1 c hk.1

/-- After the diffing loop, every field of the command is recorded in the
last-applied state, provided the command has no duplicate keys. -/
theorem sensibo_send_loop_result_lookup (l : List (String × SVal)) :
    ∀ c : List (String × SVal), (l.map Prod.fst).Nodup →
      ∀ kv ∈ l, lookup_setting kv.1 (sensibo_send_loop l c).1 = some kv.2 := by
  induction l with
  | nil => intro c _ kv hkv; cases hkv
  | cons hd tl ih =>
      intro c hnd kv hkv
      obtain ⟨k1, v1⟩ := hd
      have hndc : (k1 :: tl.map Prod.fst).Nodup := hnd
      have hnd2 := List.nodup_cons.mp hndc
      rcases List.mem_cons.mp hkv with rfl | hkv2
      · simp only [sensibo_send_loop]
        split_ifs with h1
        · rw [sensibo_send_loop_lookup_preserved tl c k1 hnd2.1]
          exact h1
        · rw [sensibo_send_loop_lookup_preserved tl _ k1 hnd2.1]
          exact lookup_set_setting_self k1 v1 c
      · simp only [sensibo_send_loop]
        split_ifs with h1
        · exact ih c hnd2.2 kv hkv2
        · exact ih _ hnd2.2 kv hkv2

/-- The diffing loop sends exactly the fields whose stored value differs,
provided the command has no duplicate keys; stated against any state c2
that agrees with a reference state c on the keys of the command. -/
theorem sensibo_send_loop_sends (l : List (String × SVal)) :
    ∀ c c2 : List (String × SVal),
      (∀ k ∈ l.map Prod.fst, lookup_setting k c2 = lookup_setting k c) →
      (l.map Prod.fst).Nodup →
      (sensibo_send_loop l c2).2
        = l.filter fun kv => decide (lookup_setting kv.1 c ≠ some kv.2) := by
  induction l with
  | nil => intro c c2 _ _; rfl
  | cons hd tl ih =>
      intro c c2 hagree hnd
      obtain ⟨k1, v1⟩ := hd
      have hndc : (k1 :: tl.map Prod.fst).Nodup := hnd
      have hnd2 := List.nodup_cons.mp hndc
      have hk1 : lookup_setting k1 c2 = lookup_setting k1 c :=
        hagree k1 (by simp)
      simp only [sensibo_send_loop]
      split_ifs with h1
      · have hfilter : (decide (lookup_setting k1 c ≠ some v1)) = false := by
          simp [← hk1, h1]
        rw [ih c c2 (fun k hk => hagree k (by simp [hk])) hnd2.2]
        have hc : lookup_setting k1 c = some v1 := by rw [← hk1]; exact h1
        simp [List.filter_cons, hc]
      · have hfilter : (decide (lookup_setting k1 c ≠ some v1)) = true := by
          simp [← hk1, h1]
        have hagree2 : ∀ k ∈ tl.map Prod.fst,
            lookup_setting k (set_setting k1 v1 c2) = lookup_setting k c := by
          intro k hk
          have hne : k ≠ k1 := fun h => hnd2.1 (h ▸ hk)
          rw [lookup_set_setting_other k1 k v1 c2 hne]
          exact hagree k (by simp [hk])
        rw [ih c (set_setting k1 v1 c2) hagree2 hnd2.2]
        have hc : ¬ (lookup_setting k1 c = some v1) := by rw [← hk1]; exact h1
        simp [List.filter_cons, hc]

/-- The target-temperature adjustment does not change the keys of the
settings dict. -/
theorem adjust_settings_keys (s : List (String × SVal)) (o : ℤ) (m : Option ℤ) :
    (adjust_settings s o m).map Prod.fst = s.map Prod.fst := by
  induction s with
  | nil => rfl
  | cons hd tl ih =>
      obtain ⟨k, v⟩ := hd
      simp only [adjust_settings, List.map_cons] at ih ⊢
      by_cases hk : k = "targetTemperature"
      · cases v <;> simp [hk, ih]
      · simp [hk, ih]

/-- C6.  Two identical consecutive SensiboController.apply calls with the
same settings, temperature offset and a valid hour that does not trigger
the skip guard: the first call sends exactly the fields that differ from
the last-applied state, and the second call sends nothing and leaves the
controller state unchanged — exactly one underlying actuation. -/
theorem sensibo_apply_idempotent (st : SensiboControllerState)
    (settings : List (String × SVal)) (tempOffset : ℤ) (validHour : Option ℤ)
    (nowHour : ℤ)
    (hkeys : (settings.map Prod.fst).Nodup)
    (hnoskip : ¬ sensibo_skip_condition st false validHour nowHour) :
    (sensibo_apply st settings tempOffset false validHour nowHour).2
        = (adjust_settings settings tempOffset st.maxTemp).filter
            (fun kv => decide (lookup_setting kv.1 st.currentSettings ≠ some kv.2))
      ∧ (sensibo_apply (sensibo_apply st settings tempOffset false validHour nowHour).1
            settings tempOffset false validHour nowHour).2 = []
      ∧ (sensibo_apply (sensibo_apply st settings tempOffset false validHour nowHour).1
            settings tempOffset false validHour nowHour).1
          = (sensibo_apply st settings tempOffset false validHour nowHour).1 := by
  have hadjkeys : ((adjust_settings settings tempOffset st.maxTemp).map Prod.fst).Nodup := by
    rw [adjust_settings_keys]; exact hkeys
  have h1 : sensibo_apply st settings tempOffset false validHour nowHour
      = ({ skipAhead := if validHour.isSome then false else st.skipAhead,
           currentSettings :=
             (sensibo_send_loop (adjust_settings settings tempOffset st.maxTemp)
               st.currentSettings).1,
           maxTemp := st.maxTemp },
         (sensibo_send_loop (adjust_settings settings tempOffset st.maxTemp)
           st.currentSettings).2) := by
    simp only [sensibo_apply, if_neg hnoskip, Bool.false_eq_true, if_false]
  rw [h1]
  refine ⟨?_, ?_, ?_⟩
  · exact sensibo_send_loop_sends _ st.currentSettings st.currentSettings
      (fun _ _ => rfl) hadjkeys
  all_goals {
    have hnoskip2 : ¬ sensibo_skip_condition
        { skipAhead := if validHour.isSome then false else st.skipAhead,
          currentSettings :=
            (sensibo_send_loop (adjust_settings settings tempOffset st.maxTemp)
              st.currentSettings).1,
          maxTemp := st.maxTemp } false validHour nowHour := by
      intro hc
      obtain ⟨hskip, _, hsome, _⟩ := hc
      simp only [hsome, if_true] at hskip
      exact Bool.false_ne_true hskip
    have hmatch : ∀ kv ∈ adjust_settings settings tempOffset st.maxTemp,
        lookup_setting kv.1
          ((sensibo_send_loop (adjust_settings settings tempOffset st.maxTemp)
            st.currentSettings).1) = some kv.2 :=
      sensibo_send_loop_result_lookup _ st.currentSettings hadjkeys
    simp only [sensibo_apply, if_neg hnoskip2, Bool.false_eq_true, if_false]
    rw [sensibo_send_loop_matches _ _ hmatch]
    try (by_cases hv : validHour.isSome = true <;> simp [hv])
  }

/-- Witness for C6: applying the example settings twice from a fresh
controller state at a matching valid hour sends nothing on the second
call. -/
theorem sensibo_apply_idempotent_witness :
    (exampleSettings.map Prod.fst).Nodup
      ∧ ¬ sensibo_skip_condition exampleControllerState false (some 5) 5
      ∧ (sensibo_apply
          (sensibo_apply exampleControllerState exampleSettings 0 false (some 5) 5).1
          exampleSettings 0 false (some 5) 5).2 = [] :=
  ⟨by decide, by decide,
   (sensibo_apply_idempotent exampleControllerState exampleSettings 0 (some 5) 5
     (by decide) (by decide)).2.1⟩

/-- On a flat tail the running lowest price stays at the common value. -/
theorem get_lowest_price_today_go_flat (V : ℚ) :
    ∀ n : ℕ, get_lowest_price_today_go (List.replicate n V) (some V) = some V := by
  intro n
  induction n with
  | zero => rfl
  | succ n ih =>
      simp only [List.replicate_succ, get_lowest_price_today_go]
      rw [if_neg (lt_irrefl V)]
      exact ih

/-- The lowest price of a non-empty flat day is the common value. -/
theorem get_lowest_price_today_flat (V : ℚ) (n : ℕ) (hn : 1 ≤ n) :
    get_lowest_price_today (List.replicate n V) = some V := by
  cases n with
  | zero => omega
  | succ m =>
      simp only [get_lowest_price_today, List.replicate_succ,
        get_lowest_price_today_go]
      exact get_lowest_price_today_go_flat V m

/-- Indexing a replicated list inside its bounds yields the common value. -/
theorem replicate_getD (V : ℚ) (n i : ℕ) (h : i < n) :
    (List.replicate n V).getD i 0 = V := by
  induction n generalizing i with
  | zero => omega
  | succ n ih =>
      cases i with
      | zero => rfl
      | succ j =>
          simp only [List.replicate_succ, List.getD_cons_succ]
          exact ih j (by omega)

/-- C4.  Classifying a flat 24-hour curve at any value V never completes:
at the hour-1 iteration of find_warmup_hours the preheat comparison calls
cost_of_consumed_mwh, which raises TypeError because the surcharge
constant is the tuple (751, 8); the exception aborts the loop, leaving
reasonably_priced_hours = [0] (hour 0 alone, appended before the crash)
and an empty preheat_favorable_hours — not the all-24-hour set the claim
asserts. -/
theorem flat_curve_classification_aborts (V indoorT forecastT : ℚ) :
    find_warmup_hours (List.replicate 24 V) indoorT forecastT
        = Except.error
            ("TypeError: can only concatenate tuple, not float, to tuple",
             [(0 : ℤ)], ([] : List ℤ))
      ∧ [(0 : ℤ)] ≠ allDayHours := by
  constructor
  · have h0 : find_warmup_hours (List.replicate 24 V) indoorT forecastT
        = Except.error
            ("TypeError: can only concatenate tuple, not float, to tuple",
             update_reasonably_priced_hours (List.replicate 24 V)
               ((get_lowest_price_today (List.replicate 24 V)).getD 0) V 0
               (Int.ofNat 0) [],
             ([] : List ℤ)) := rfl
    rw [h0]
    have hlow : (get_lowest_price_today (List.replicate 24 V)).getD 0 = V := by
      rw [get_lowest_price_today_flat V 24 (by omega)]
      rfl
    rw [hlow]
    have hupd : update_reasonably_priced_hours (List.replicate 24 V) V V 0
        (Int.ofNat 0) [] = [(0 : ℤ)] := by
      simp only [update_reasonably_priced_hours]
      rw [if_pos ⟨Or.inl (by
          have : (0 : ℚ) ≤
              RELATIVE_SEK_PER_MWH_TO_CONSIDER_REASONABLE_WHEN_COMPARED_TO_CHEAPEST := by
            norm_num [RELATIVE_SEK_PER_MWH_TO_CONSIDER_REASONABLE_WHEN_COMPARED_TO_CHEAPEST]
          linarith),
        Or.inl ⟨by simp only [List.length_replicate]; omega,
          Or.inl (le_of_eq (replicate_getD V 24 1 (by omega)).symm)⟩⟩]
      rfl
    rw [hupd]
  · decide

/-- A function that is linear on a small interval on each side of a point,
with the same value at the point, is continuous there (epsilon-delta over
the rationals). -/
theorem continuousAtQ_of_local_linear (f : ℚ → ℚ) (b v sl sr : ℚ)
    (hl : ∀ t : ℚ, b - 1 ≤ t → t ≤ b → f t = v + sl * (t - b))
    (hr : ∀ t : ℚ, b ≤ t → t ≤ b + 1 → f t = v + sr * (t - b)) :
    ContinuousAtQ f b := by
  intro ε hε
  have hLpos : 0 < |sl| + |sr| + 1 := by positivity
  refine ⟨min 1 (ε / (|sl| + |sr| + 1)),
    lt_min one_pos (div_pos hε hLpos), ?_⟩
  intro t ht
  have ht1 : |t - b| < 1 := lt_of_lt_of_le ht (min_le_left _ _)
  have ht2 : |t - b| < ε / (|sl| + |sr| + 1) := lt_of_lt_of_le ht (min_le_right _ _)
  have habs1 := abs_lt.mp ht1
  have hfb : f b = v := by
    have h := hr b le_rfl (by linarith)
    simpa using h
  have hbound : |f t - f b| ≤ (|sl| + |sr| + 1) * |t - b| := by
    rcases le_total t b with hc | hc
    · rw [hl t (by linarith) hc, hfb]
      have heq : v + sl * (t - b) - v = sl * (t - b) := by ring
      rw [heq, abs_mul]
      have h1 : |sl| ≤ |sl| + |sr| + 1 := by
        have := abs_nonneg sr
        linarith
      exact mul_le_mul_of_nonneg_right h1 (abs_nonneg _)
    · rw [hr t hc (by linarith), hfb]
      have heq : v + sr * (t - b) - v = sr * (t - b) := by ring
      rw [heq, abs_mul]
      have h1 : |sr| ≤ |sl| + |sr| + 1 := by
        have := abs_nonneg sl
        linarith
      exact mul_le_mul_of_nonneg_right h1 (abs_nonneg _)
  have hfin : (|sl| + |sr| + 1) * |t - b| < ε := by
    have h2 : (|sl| + |sr| + 1) * |t - b|
        < (|sl| + |sr| + 1) * (ε / (|sl| + |sr| + 1)) :=
      mul_lt_mul_of_pos_left ht2 hLpos
    have h3 : (|sl| + |sr| + 1) * (ε / (|sl| + |sr| + 1)) = ε := by
      field_simp
    linarith
  linarith

/-- Above the top calibration point the COP curve is flat at 3.6. -/
theorem get_cop_flat_high (t : ℚ) (h : 15 ≤ t) : get_cop t = 18/5 := by
  simp only [get_cop, interpolate_linear, HEATPUMP_COP_AT_PLUS15, HEATPUMP_COP_AT_PLUS7,
    HEATPUMP_COP_AT_PLUS2, HEATPUMP_COP_AT_MINUS7, HEATPUMP_COP_AT_MINUS15]
  split_ifs <;> first | linarith | norm_num

/-- Below the bottom calibration point the COP curve is flat at 2.1. -/
theorem get_cop_flat_low (t : ℚ) (h : t ≤ -15) : get_cop t = 21/10 := by
  simp only [get_cop, interpolate_linear, HEATPUMP_COP_AT_PLUS15, HEATPUMP_COP_AT_PLUS7,
    HEATPUMP_COP_AT_PLUS2, HEATPUMP_COP_AT_MINUS7, HEATPUMP_COP_AT_MINUS15]
  split_ifs <;> first | linarith | norm_num

/-- COP on the closed segment between the +7 and +15 calibration points. -/
theorem get_cop_piece_7_15 (t : ℚ) (h1 : 7 ≤ t) (h2 : t ≤ 15) :
    get_cop t = 18/5 + (3/40) * (t - 15) := by
  simp only [get_cop, interpolate_linear, HEATPUMP_COP_AT_PLUS15, HEATPUMP_COP_AT_PLUS7,
    HEATPUMP_COP_AT_PLUS2, HEATPUMP_COP_AT_MINUS7, HEATPUMP_COP_AT_MINUS15]
  split_ifs <;> linarith

/-- COP on the closed segment between the +2 and +7 calibration points. -/
theorem get_cop_piece_2_7 (t : ℚ) (h1 : 2 ≤ t) (h2 : t ≤ 7) :
    get_cop t = 3 + (1/25) * (t - 7) := by
  simp only [get_cop, interpolate_linear, HEATPUMP_COP_AT_PLUS15, HEATPUMP_COP_AT_PLUS7,
    HEATPUMP_COP_AT_PLUS2, HEATPUMP_COP_AT_MINUS7, HEATPUMP_COP_AT_MINUS15]
  split_ifs <;> linarith

/-- COP on the closed segment between the -7 and +2 calibration points. -/
theorem get_cop_piece_m7_2 (t : ℚ) (h1 : -7 ≤ t) (h2 : t ≤ 2) :
    get_cop t = 14/5 + (1/18) * (t - 2) := by
  simp only [get_cop, interpolate_linear, HEATPUMP_COP_AT_PLUS15, HEATPUMP_COP_AT_PLUS7,
    HEATPUMP_COP_AT_PLUS2, HEATPUMP_COP_AT_MINUS7, HEATPUMP_COP_AT_MINUS15]
  split_ifs <;> linarith

/-- COP on the closed segment between the -15 and -7 calibration points. -/
theorem get_cop_piece_m15_m7 (t : ℚ) (h1 : -15 ≤ t) (h2 : t ≤ -7) :
    get_cop t = 23/10 + (1/40) * (t + 7) := by
  simp only [get_cop, interpolate_linear, HEATPUMP_COP_AT_PLUS15, HEATPUMP_COP_AT_PLUS7,
    HEATPUMP_COP_AT_PLUS2, HEATPUMP_COP_AT_MINUS7, HEATPUMP_COP_AT_MINUS15]
  split_ifs <;> linarith

/-- Above the top capacity calibration point the curve is flat at
6600 watts times the age factor. -/
theorem get_current_capacity_flat_high (t : ℚ) (h : 7 ≤ t) :
    get_current_capacity t = 5808 := by
  simp only [get_current_capacity, interpolate_linear, HEATPUMP_HEATING_WATTS_AT_PLUS7,
    HEATPUMP_HEATING_WATTS_AT_PLUS2, HEATPUMP_HEATING_WATTS_AT_MINUS7,
    HEATPUMP_HEATING_WATTS_AT_MINUS15, HEATPUMP_CAPACITY_AGE_FACTOR]
  split_ifs <;> first | linarith | norm_num

/-- Below the bottom capacity calibration point the curve is flat at
4300 watts times the age factor. -/
theorem get_current_capacity_flat_low (t : ℚ) (h : t ≤ -15) :
    get_current_capacity t = 3784 := by
  simp only [get_current_capacity, interpolate_linear, HEATPUMP_HEATING_WATTS_AT_PLUS7,
    HEATPUMP_HEATING_WATTS_AT_PLUS2, HEATPUMP_HEATING_WATTS_AT_MINUS7,
    HEATPUMP_HEATING_WATTS_AT_MINUS15, HEATPUMP_CAPACITY_AGE_FACTOR]
  split_ifs <;> first | linarith | norm_num

/-- Capacity on the closed segment between the +2 and +7 points. -/
theorem get_current_capacity_piece_2_7 (t : ℚ) (h1 : 2 ≤ t) (h2 : t ≤ 7) :
    get_current_capacity t = 4928 + 176 * (t - 2) := by
  simp only [get_current_capacity, interpolate_linear, HEATPUMP_HEATING_WATTS_AT_PLUS7,
    HEATPUMP_HEATING_WATTS_AT_PLUS2, HEATPUMP_HEATING_WATTS_AT_MINUS7,
    HEATPUMP_HEATING_WATTS_AT_MINUS15, HEATPUMP_CAPACITY_AGE_FACTOR]
  split_ifs <;> linarith

/-- Capacity on the closed segment between the -7 and +2 points. -/
theorem get_current_capacity_piece_m7_2 (t : ℚ) (h1 : -7 ≤ t) (h2 : t ≤ 2) :
    get_current_capacity t = 4576 + (352/9) * (t + 7) := by
  simp only [get_current_capacity, interpolate_linear, HEATPUMP_HEATING_WATTS_AT_PLUS7,
    HEATPUMP_HEATING_WATTS_AT_PLUS2, HEATPUMP_HEATING_WATTS_AT_MINUS7,
    HEATPUMP_HEATING_WATTS_AT_MINUS15, HEATPUMP_CAPACITY_AGE_FACTOR]
  split_ifs <;> linarith

/-- Capacity on the closed segment between the -15 and -7 points. -/
theorem get_current_capacity_piece_m15_m7 (t : ℚ) (h1 : -15 ≤ t) (h2 : t ≤ -7) :
    get_current_capacity t = 3784 + 99 * (t + 15) := by
  simp only [get_current_capacity, interpolate_linear, HEATPUMP_HEATING_WATTS_AT_PLUS7,
    HEATPUMP_HEATING_WATTS_AT_PLUS2, HEATPUMP_HEATING_WATTS_AT_MINUS7,
    HEATPUMP_HEATING_WATTS_AT_MINUS15, HEATPUMP_CAPACITY_AGE_FACTOR]
  split_ifs <;> linarith

/-- C8.  HeatpumpModel.get_cop and HeatpumpModel.get_current_capacity are
flat (boundary value, no extrapolation) outside the calibrated range,
return the exact calibrated value at every calibration point, and are
continuous (epsilon-delta over ℚ) at every calibration boundary. -/
theorem heatpump_model_flat_exact_continuous :
    (∀ t : ℚ, 15 ≤ t → get_cop t = HEATPUMP_COP_AT_PLUS15)
  ∧ (∀ t : ℚ, t ≤ -15 → get_cop t = HEATPUMP_COP_AT_MINUS15)
  ∧ (∀ t : ℚ, 7 ≤ t → get_current_capacity t
      = HEATPUMP_HEATING_WATTS_AT_PLUS7 * HEATPUMP_CAPACITY_AGE_FACTOR)
  ∧ (∀ t : ℚ, t ≤ -15 → get_current_capacity t
      = HEATPUMP_HEATING_WATTS_AT_MINUS15 * HEATPUMP_CAPACITY_AGE_FACTOR)
  ∧ (get_cop (-15) = HEATPUMP_COP_AT_MINUS15
      ∧ get_cop (-7) = HEATPUMP_COP_AT_MINUS7
      ∧ get_cop 2 = HEATPUMP_COP_AT_PLUS2
      ∧ get_cop 7 = HEATPUMP_COP_AT_PLUS7
      ∧ get_cop 15 = HEATPUMP_COP_AT_PLUS15)
  ∧ (get_current_capacity (-15)
        = HEATPUMP_HEATING_WATTS_AT_MINUS15 * HEATPUMP_CAPACITY_AGE_FACTOR
      ∧ get_current_capacity (-7)
        = HEATPUMP_HEATING_WATTS_AT_MINUS7 * HEATPUMP_CAPACITY_AGE_FACTOR
      ∧ get_current_capacity 2
        = HEATPUMP_HEATING_WATTS_AT_PLUS2 * HEATPUMP_CAPACITY_AGE_FACTOR
      ∧ get_current_capacity 7
        = HEATPUMP_HEATING_WATTS_AT_PLUS7 * HEATPUMP_CAPACITY_AGE_FACTOR)
  ∧ ContinuousAtQ get_cop (-15) ∧ ContinuousAtQ get_cop (-7)
  ∧ ContinuousAtQ get_cop 2 ∧ ContinuousAtQ get_cop 7 ∧ ContinuousAtQ get_cop 15
  ∧ ContinuousAtQ get_current_capacity (-15)
  ∧ ContinuousAtQ get_current_capacity (-7)
  ∧ ContinuousAtQ get_current_capacity 2
  ∧ ContinuousAtQ get_current_capacity 7 := by
  refine ⟨?_, ?_, ?_, ?_, ⟨?_, ?_, ?_, ?_, ?_⟩, ⟨?_, ?_, ?_, ?_⟩,
    ?_, ?_, ?_, ?_, ?_, ?_, ?_, ?_, ?_⟩
  · intro t h
    rw [get_cop_flat_high t h]
    norm_num [HEATPUMP_COP_AT_PLUS15]
  · intro t h
    rw [get_cop_flat_low t h]
    norm_num [HEATPUMP_COP_AT_MINUS15]
  · intro t h
    rw [get_current_capacity_flat_high t h]
    norm_num [HEATPUMP_HEATING_WATTS_AT_PLUS7, HEATPUMP_CAPACITY_AGE_FACTOR]
  · intro t h
    rw [get_current_capacity_flat_low t h]
    norm_num [HEATPUMP_HEATING_WATTS_AT_MINUS15, HEATPUMP_CAPACITY_AGE_FACTOR]
  · rw [get_cop_flat_low (-15) (by norm_num)]
    norm_num [HEATPUMP_COP_AT_MINUS15]
  · rw [get_cop_piece_m15_m7 (-7) (by norm_num) (by norm_num)]
    norm_num [HEATPUMP_COP_AT_MINUS7]
  · rw [get_cop_piece_m7_2 2 (by norm_num) (by norm_num)]
    norm_num [HEATPUMP_COP_AT_PLUS2]
  · rw [get_cop_piece_2_7 7 (by norm_num) (by norm_num)]
    norm_num [HEATPUMP_COP_AT_PLUS7]
  · rw [get_cop_flat_high 15 (by norm_num)]
    norm_num [HEATPUMP_COP_AT_PLUS15]
  · rw [get_current_capacity_flat_low (-15) (by norm_num)]
    norm_num [HEATPUMP_HEATING_WATTS_AT_MINUS15, HEATPUMP_CAPACITY_AGE_FACTOR]
  · rw [get_current_capacity_piece_m15_m7 (-7) (by norm_num) (by norm_num)]
    norm_num [HEATPUMP_HEATING_WATTS_AT_MINUS7, HEATPUMP_CAPACITY_AGE_FACTOR]
  · rw [get_current_capacity_piece_m7_2 2 (by norm_num) (by norm_num)]
    norm_num [HEATPUMP_HEATING_WATTS_AT_PLUS2, HEATPUMP_CAPACITY_AGE_FACTOR]
  · rw [get_current_capacity_flat_high 7 (by norm_num)]
    norm_num [HEATPUMP_HEATING_WATTS_AT_PLUS7, HEATPUMP_CAPACITY_AGE_FACTOR]
  · exact continuousAtQ_of_local_linear get_cop (-15) (21/10) 0 (1/40)
      (fun t h1 h2 => by have h := get_cop_flat_low t h2; linarith)
      (fun t h1 h2 => by
        have h := get_cop_piece_m15_m7 t h1 (by linarith)
        linarith)
  · exact continuousAtQ_of_local_linear get_cop (-7) (23/10) (1/40) (1/18)
      (fun t h1 h2 => by
        have h := get_cop_piece_m15_m7 t (by linarith) h2
        linarith)
      (fun t h1 h2 => by
        have h := get_cop_piece_m7_2 t h1 (by linarith)
        linarith)
  · exact continuousAtQ_of_local_linear get_cop 2 (14/5) (1/18) (1/25)
      (fun t h1 h2 => by
        have h := get_cop_piece_m7_2 t (by linarith) h2
        linarith)
      (fun t h1 h2 => by
        have h := get_cop_piece_2_7 t h1 (by linarith)
        linarith)
  · exact continuousAtQ_of_local_linear get_cop 7 3 (1/25) (3/40)
      (fun t h1 h2 => by
        have h := get_cop_piece_2_7 t (by linarith) h2
        linarith)
      (fun t h1 h2 => by
        have h := get_cop_piece_7_15 t h1 (by linarith)
        linarith)
  · exact continuousAtQ_of_local_linear get_cop 15 (18/5) (3/40) 0
      (fun t h1 h2 => by
        have h := get_cop_piece_7_15 t (by linarith) h2
        linarith)
      (fun t h1 h2 => by have h := get_cop_flat_high t h1; linarith)
  · exact continuousAtQ_of_local_linear get_current_capacity (-15) 3784 0 99
      (fun t h1 h2 => by have h := get_current_capacity_flat_low t h2; linarith)
      (fun t h1 h2 => by
        have h := get_current_capacity_piece_m15_m7 t h1 (by linarith)
        linarith)
  · exact continuousAtQ_of_local_linear get_current_capacity (-7) 4576 99 (352/9)
      (fun t h1 h2 => by
        have h := get_current_capacity_piece_m15_m7 t (by linarith) h2
        linarith)
      (fun t h1 h2 => by
        have h := get_current_capacity_piece_m7_2 t h1 (by linarith)
        linarith)
  · exact continuousAtQ_of_local_linear get_current_capacity 2 4928 (352/9) 176
      (fun t h1 h2 => by
        have h := get_current_capacity_piece_m7_2 t (by linarith) h2
        linarith)
      (fun t h1 h2 => by
        have h := get_current_capacity_piece_2_7 t h1 (by linarith)
        linarith)
  · exact continuousAtQ_of_local_linear get_current_capacity 7 5808 176 0
      (fun t h1 h2 => by
        have h := get_current_capacity_piece_2_7 t (by linarith) h2
        linarith)
      (fun t h1 h2 => by have h := get_current_capacity_flat_high t h1; linarith)

/-- Witness for C8: flatness evaluated at +20 and -20 degrees. -/
theorem heatpump_model_flat_exact_continuous_witness :
    ((15 : ℚ) ≤ 20 ∧ get_cop 20 = HEATPUMP_COP_AT_PLUS15)
      ∧ ((-20 : ℚ) ≤ -15 ∧ get_current_capacity (-20)
          = HEATPUMP_HEATING_WATTS_AT_MINUS15 * HEATPUMP_CAPACITY_AGE_FACTOR) :=
  ⟨⟨by norm_num, heatpump_model_flat_exact_continuous.1 20 (by norm_num)⟩,
   ⟨by norm_num, heatpump_model_flat_exact_continuous.2.2.2.1 (-20) (by norm_num)⟩⟩
